import Mathlib

/-!
Shallow embedding of the Dell privacy notification driver
(drivers/platform/x86/dell-privacy-wmi.c and the companion ACPI/LED file).

Machine integers are modelled as Nat with explicit reduction modulo 2^32
where the C code stores into u32 fields.  Errno constants are modelled as
their positive magnitudes and the driver's negative return codes as
negated Int literals.  Firmware and allocator behaviour that the driver
only observes through return values is modelled as explicit environment
records passed to the operations.
-/

namespace DellPrivacy

/-! Errno magnitudes used by the driver. -/

def eio : Int := 5

def einval : Int := 22

def enodev : Int := 19

def enomem : Int := 12

def eprobe_defer : Int := 517

/-! Input-subsystem event codes referenced by the keymap. -/

def KEY_MICMUTE : Nat := 248

def SW_CAMERA_LENS_COVER : Nat := 9

def DELL_PRIVACY_TYPE_AUDIO : Nat := 1

def DELL_PRIVACY_TYPE_CAMERA : Nat := 2

inductive KeType
  | KE_KEY
  | KE_SW
  | KE_END
deriving DecidableEq

structure key_entry where
  ketype : KeType
  code : Nat
  keycode : Nat
deriving DecidableEq

/-- Keymap for WMI privacy events of type 0x0012, without the KE_END
terminator (which carries no action and is not searched). -/
def dell_wmi_keymap_type_0012 : List key_entry :=
  [⟨KeType.KE_KEY, 0x0001, KEY_MICMUTE⟩,
   ⟨KeType.KE_SW, 0x0002, SW_CAMERA_LENS_COVER⟩]

/-- The probe loop ORs the namespace prefix 0x0012 shifted by 16 into each
keymap entry code before installing the keymap on the input device. -/
def remap_entry (e : key_entry) : key_entry :=
  { e with code := e.code ||| (0x0012 <<< 16) }

/-- The keymap actually installed by dell_privacy_wmi_probe. -/
def probe_keymap : List key_entry := dell_wmi_keymap_type_0012.map remap_entry

/-- Lookup of a scancode in a sparse keymap. -/
def sparse_keymap_entry_from_scancode (km : List key_entry) (sc : Nat) :
    Option key_entry :=
  km.find? (fun e => e.code == sc)

/-- One abstract input action as reported through the input device. -/
inductive InputAction
  | key : Nat → InputAction
  | sw : Nat → Nat → InputAction
deriving DecidableEq

/-- One sparse_keymap_report_entry call emits one input action. -/
def sparse_keymap_report_entry (e : key_entry) (value : Nat) : List InputAction :=
  match e.ketype with
  | KeType.KE_KEY => [InputAction.key e.keycode]
  | KeType.KE_SW => [InputAction.sw e.keycode value]
  | KeType.KE_END => []

/-- Per-instance driver data (u32 fields modelled as Nat < 2^32). -/
structure privacy_wmi_data where
  features_present : Nat
  last_status : Nat
deriving DecidableEq

/-- Global driver state: whether the privacy GUID is present on the system,
the privacy_valid flag, and the wmi_list registration list (first
registered instance at the head, list_add_tail appends at the end). -/
structure DriverState where
  guidPresent : Bool
  privacy_valid : Int
  wmi_list : List privacy_wmi_data
deriving DecidableEq

/-- State right after module load: privacy_valid = -EPROBE_DEFER, empty list. -/
def initState (guid : Bool) : DriverState :=
  ⟨guid, -eprobe_defer, []⟩

/-- dell_privacy_valid: returns -ENODEV when the GUID is absent, otherwise
the cached privacy_valid.  The returned state records that the function
writes nothing. -/
def dell_privacy_valid (st : DriverState) : Int × DriverState :=
  if st.guidPresent = false then (-enodev, st)
  else (st.privacy_valid, st)

/-- The composite scancode (type << 16) | code computed in 32-bit ints. -/
def scancode (ty code : Nat) : Nat :=
  ((ty <<< 16) ||| code) % 4294967296

/-- dell_privacy_process_event: takes the first registered instance, looks
the composite scancode up in the installed keymap, and on the audio or
camera code stores status into last_status and reports the entry once.
The C function is void: there is no error return path, so the result is
just the new state and the list of emitted input actions. -/
def dell_privacy_process_event (st : DriverState) (ty code status : Nat) :
    DriverState × List InputAction :=
  match st.wmi_list with
  | [] => (st, [])
  | priv :: rest =>
    match sparse_keymap_entry_from_scancode probe_keymap (scancode ty code) with
    | Option.none => (st, [])
    | Option.some key =>
      if code = DELL_PRIVACY_TYPE_AUDIO then
        ({ st with wmi_list := { priv with last_status := status % 4294967296 } :: rest },
         sparse_keymap_report_entry key 1)
      else if code = DELL_PRIVACY_TYPE_CAMERA then
        ({ st with wmi_list := { priv with last_status := status % 4294967296 } :: rest },
         sparse_keymap_report_entry key 1)
      else (st, [])

/-- Result of wmidev_block_query as the driver distinguishes it: a null
pointer, a non-buffer ACPI object, or a byte buffer. -/
inductive WmiObj
  | null
  | nonBuffer
  | buffer : List Nat → WmiObj
deriving DecidableEq

/-- Little-endian u32 read at a byte offset, as the cast u32 pointer does. -/
def u32le (bytes : List Nat) (off : Nat) : Nat :=
  bytes.getD off 0 + 256 * bytes.getD (off + 1) 0 + 65536 * bytes.getD (off + 2) 0 +
    16777216 * bytes.getD (off + 3) 0

/-- Little-endian byte encoding of a u32 value. -/
def encode_u32le (x : Nat) : List Nat :=
  [x % 256, x / 256 % 256, x / 65536 % 256, x / 16777216 % 256]

/-- get_current_status: result is (updated instance, value written to
privacy_valid, return code).  Null result or non-buffer object give -EIO,
a buffer whose length is not 8 gives -EINVAL; in each error case
privacy_valid is set to that same code and the instance is untouched.  On
success privacy_valid is set to 0 and both fields are read from the
buffer. -/
def get_current_status (priv : privacy_wmi_data) (resp : WmiObj) :
    privacy_wmi_data × Int × Int :=
  match resp with
  | WmiObj.null => (priv, -eio, -eio)
  | WmiObj.nonBuffer => (priv, -eio, -eio)
  | WmiObj.buffer bytes =>
    if bytes.length ≠ 8 then (priv, -einval, -einval)
    else ({ priv with features_present := u32le bytes 0, last_status := u32le bytes 4 }, 0, 0)

/-- Hexadecimal rendering used by sysfs_emit with a %x conversion. -/
def hex_text (x : Nat) : String := String.mk (Nat.toDigits 16 x)

def devices_supported_show (priv : privacy_wmi_data) : String :=
  hex_text priv.features_present ++ "\n"

def current_state_show (priv : privacy_wmi_data) : String :=
  hex_text priv.last_status ++ "\n"

/-- Environment for one probe call: which allocations succeed, what the
library calls return, and what the WMI block query yields. -/
structure ProbeEnv where
  kzalloc_ok : Bool
  input_alloc_ok : Bool
  keymap_alloc_ok : Bool
  sparse_setup_ret : Int
  input_register_ok : Bool
  wmi_response : WmiObj
  group_add_ret : Int
deriving DecidableEq

/-- dell_privacy_wmi_probe.  Faithful to the C control flow, including two
quirks of the source: after sparse_keymap_setup succeeds, ret stays 0 and
is never reassigned on the input_register_device and get_current_status
failure paths, so those paths return 0; and the err_free_input label does
not remove the instance from wmi_list even though list_add_tail already
ran. -/
def dell_privacy_wmi_probe (st : DriverState) (env : ProbeEnv) : DriverState × Int :=
  if env.kzalloc_ok = false then (st, -enomem)
  else if env.input_alloc_ok = false then (st, -enomem)
  else if env.keymap_alloc_ok = false then (st, -enomem)
  else if env.sparse_setup_ret ≠ 0 then (st, env.sparse_setup_ret)
  else if env.input_register_ok = false then
    ({ st with privacy_valid := -enodev }, 0)
  else
    let r := get_current_status ⟨0, 0⟩ env.wmi_response
    if r.2.2 ≠ 0 then
      ({ st with wmi_list := st.wmi_list ++ [r.1], privacy_valid := -enodev }, 0)
    else if env.group_add_ret ≠ 0 then
      ({ st with wmi_list := st.wmi_list ++ [r.1], privacy_valid := -enodev },
       env.group_add_ret)
    else
      ({ st with wmi_list := st.wmi_list ++ [r.1], privacy_valid := r.2.1 }, 0)

/-- dell_privacy_wmi_remove: deletes the removed device's instance from the
list (modelled by its index) and sets privacy_valid to -ENODEV. -/
def dell_privacy_wmi_remove (st : DriverState) (i : Nat) : DriverState × Int :=
  ({ st with wmi_list := st.wmi_list.eraseIdx i, privacy_valid := -enodev }, 0)

/-- Environment for the micmute LED callback: whether the EC handle exists,
whether it exposes the ECAK method, and whether evaluating it succeeds. -/
structure EcEnv where
  handle_present : Bool
  method_present : Bool
  eval_ok : Bool
deriving DecidableEq

/-- dell_privacy_micmute_led_set: result is (return code, number of ECAK
acknowledgment calls issued).  The brightness argument is not consulted
anywhere in the body. -/
def dell_privacy_micmute_led_set (env : EcEnv) (brightness : Nat) : Int × Nat :=
  if env.handle_present = false then (-eio, 0)
  else if env.method_present = false then (-eio, 0)
  else if env.eval_ok = false then (-eio, 1)
  else (0, 1)

/-- The WMI response is a well-formed 8-byte buffer. -/
def wmi_response_ok : WmiObj → Bool
  | WmiObj.buffer bytes => bytes.length == 8
  | _ => false

/-- Every step of a probe succeeds. -/
def probe_success (env : ProbeEnv) : Bool :=
  env.kzalloc_ok && env.input_alloc_ok && env.keymap_alloc_ok &&
    (env.sparse_setup_ret == 0) && env.input_register_ok &&
    wmi_response_ok env.wmi_response && (env.group_add_ret == 0)

/-- The probe reaches one of its error labels (it fails at or after
input_register_device, after keymap setup succeeded). -/
def probe_fails_late (env : ProbeEnv) : Bool :=
  env.kzalloc_ok && env.input_alloc_ok && env.keymap_alloc_ok &&
    (env.sparse_setup_ret == 0) &&
    (!env.input_register_ok || !wmi_response_ok env.wmi_response ||
      !(env.group_add_ret == 0))

/-- The (type, code) pair has an entry in the type 0x0012 keymap table. -/
def pair_in_keymap (ty code : Nat) : Bool :=
  (ty == 0x0012) && dell_wmi_keymap_type_0012.any (fun e => e.code == code)

/-- One step of driver activity: a probe under some environment, a removal
of some registered instance, a firmware event, or a validity query. -/
inductive Step : DriverState → DriverState → Prop
  | probe (st : DriverState) (env : ProbeEnv) :
      Step st (dell_privacy_wmi_probe st env).1
  | remove (st : DriverState) (i : Nat) :
      Step st (dell_privacy_wmi_remove st i).1
  | event (st : DriverState) (ty code status : Nat) :
      Step st (dell_privacy_process_event st ty code status).1
  | query (st : DriverState) :
      Step st (dell_privacy_valid st).2

/-- States reachable from module load on a system where the GUID presence
is fixed to g. -/
inductive Reachable (g : Bool) : DriverState → Prop
  | init : Reachable g (initState g)
  | step (s t : DriverState) : Reachable g s → Step s t → Reachable g t

/-! Helper lemmas shared by several claims. -/

/-- The validity query never writes the state: both branches return it. -/
theorem dell_privacy_valid_snd (st : DriverState) : (dell_privacy_valid st).2 = st := by
  unfold dell_privacy_valid
  split <;> rfl

/-- Under the u16 bounds of the event contract, the composite scancode is
the exact base-65536 combination of type and code. -/
theorem scancode_eq (ty code : Nat) (hty : ty < 65536) (hcode : code < 65536) :
    scancode ty code = ty * 65536 + code := by
  have hpow : (2 : Nat) ^ 16 = 65536 := by norm_num
  have hc : code < 2 ^ 16 := by simpa [hpow] using hcode
  have h2 := Nat.mul_add_lt_is_or hc ty
  rw [hpow] at h2
  unfold scancode
  rw [Nat.shiftLeft_eq, hpow, Nat.mul_comm ty 65536, ← h2]
  apply Nat.mod_eq_of_lt
  omega

/-- Membership in the keymap table in arithmetic form. -/
theorem pair_in_keymap_iff (ty code : Nat) :
    pair_in_keymap ty code = true ↔ ty = 18 ∧ (code = 1 ∨ code = 2) := by
  simp [pair_in_keymap, dell_wmi_keymap_type_0012]
  intro _
  omega

/-- A process_event call either leaves the state unchanged or rewrites only
the head instance's last_status field. -/
theorem process_event_state_cases (st : DriverState) (ty code status : Nat) :
    (dell_privacy_process_event st ty code status).1 = st
    ∨ ∃ p rest, st.wmi_list = p :: rest
        ∧ (dell_privacy_process_event st ty code status).1
            = { st with wmi_list := { p with last_status := status % 4294967296 } :: rest } := by
  obtain ⟨g, v, l⟩ := st
  cases l with
  | nil => exact Or.inl rfl
  | cons p rest =>
    cases hk : sparse_keymap_entry_from_scancode probe_keymap (scancode ty code) with
    | none =>
      left
      simp [dell_privacy_process_event, hk]
    | some key =>
      by_cases h1 : code = DELL_PRIVACY_TYPE_AUDIO
      · subst h1
        right
        refine ⟨p, rest, rfl, ?_⟩
        simp [dell_privacy_process_event, hk]
      · by_cases h2 : code = DELL_PRIVACY_TYPE_CAMERA
        · subst h2
          right
          refine ⟨p, rest, rfl, ?_⟩
          simp [dell_privacy_process_event, hk, h1]
        · left
          simp [dell_privacy_process_event, hk, h1, h2]

/-! Claim theorems. -/

/-- C2 counterexample: with a reachable embedded-controller handle that
exposes the acknowledgment method, setting brightness 0 still issues an
acknowledgment call, refuting the claim that the off transition issues
none. -/
theorem C2_counterexample :
    ¬ (dell_privacy_micmute_led_set ⟨true, true, true⟩ 0).2 = 0 := by
  decide

/-- C2 (amended): with a reachable embedded-controller handle exposing the
acknowledgment method whose evaluation succeeds, the indicator callback
returns Ok and issues exactly one acknowledgment call for every requested
brightness, on and off alike: the brightness value is never consulted. -/
theorem C2_led_set_amended (env : EcEnv) (brightness : Nat)
    (h1 : env.handle_present = true) (h2 : env.method_present = true)
    (h3 : env.eval_ok = true) :
    dell_privacy_micmute_led_set env brightness = (0, 1) := by
  obtain ⟨a, b, c⟩ := env
  subst h1 h2 h3
  rfl

/-- C2 witness: the amended theorem at brightness 1 with an all-reachable
environment. -/
theorem C2_led_set_amended_witness :
    dell_privacy_micmute_led_set ⟨true, true, true⟩ 1 = (0, 1) :=
  C2_led_set_amended ⟨true, true, true⟩ 1 rfl rfl rfl

/-- C3 (code bug): a probe in which every setup step succeeds but the WMI
status query returns a 7-byte buffer terminates with return value 0
(reported success) while the instance stays in the registration list,
because ret is never reassigned after sparse_keymap_setup and the
err_free_input path does not delete the list entry; the validity flag is
set to -ENODEV as the claim requires, but the nonzero return and the
no-partial-state parts of the claim are violated. -/
theorem C3_probe_error_path :
    (dell_privacy_wmi_probe (initState true)
        ⟨true, true, true, 0, true, WmiObj.buffer [0, 0, 0, 0, 0, 0, 0], 0⟩).2 = 0
    ∧ (dell_privacy_wmi_probe (initState true)
        ⟨true, true, true, 0, true, WmiObj.buffer [0, 0, 0, 0, 0, 0, 0], 0⟩).1.wmi_list
        = [⟨0, 0⟩]
    ∧ (dell_privacy_wmi_probe (initState true)
        ⟨true, true, true, 0, true, WmiObj.buffer [0, 0, 0, 0, 0, 0, 0], 0⟩).1.privacy_valid
        = -enodev := by
  decide

/-- C5: the initial synchronous status query returns -EIO when the firmware
result is null or not a buffer, -EINVAL when the buffer length is not 8,
and in each of those cases writes that same code to the validity flag
while leaving the instance untouched; on an 8-byte buffer it returns 0,
writes 0 (Valid) to the validity flag, and populates features_present and
last_status from the buffer. -/
theorem C5_get_current_status_errors :
    (∀ priv : privacy_wmi_data, get_current_status priv WmiObj.null = (priv, -eio, -eio))
    ∧ (∀ priv : privacy_wmi_data,
        get_current_status priv WmiObj.nonBuffer = (priv, -eio, -eio))
    ∧ (∀ (priv : privacy_wmi_data) (bytes : List Nat), bytes.length ≠ 8 →
        get_current_status priv (WmiObj.buffer bytes) = (priv, -einval, -einval))
    ∧ (∀ (priv : privacy_wmi_data) (bytes : List Nat), bytes.length = 8 →
        get_current_status priv (WmiObj.buffer bytes)
          = (⟨u32le bytes 0, u32le bytes 4⟩, 0, 0)) := by
  refine ⟨fun priv => rfl, fun priv => rfl, ?_, ?_⟩
  · intro priv bytes h
    simp [get_current_status, h]
  · intro priv bytes h
    simp [get_current_status, h]

/-- C5 witness: a 3-byte buffer yields -EINVAL with that code recorded in
the validity flag and the instance unchanged. -/
theorem C5_get_current_status_errors_witness :
    get_current_status ⟨7, 9⟩ (WmiObj.buffer [1, 2, 3]) = (⟨7, 9⟩, -einval, -einval) :=
  C5_get_current_status_errors.2.2.1 ⟨7, 9⟩ [1, 2, 3] (by decide)

/-- C6: when the status query receives a buffer whose length is not 8 it
returns -EINVAL and both Status Store fields keep their prior values. -/
theorem C6_bad_length_preserves_fields (priv : privacy_wmi_data) (bytes : List Nat)
    (h : bytes.length ≠ 8) :
    (get_current_status priv (WmiObj.buffer bytes)).1.features_present
        = priv.features_present
    ∧ (get_current_status priv (WmiObj.buffer bytes)).1.last_status = priv.last_status
    ∧ (get_current_status priv (WmiObj.buffer bytes)).2.2 = -einval := by
  simp [get_current_status, h]

/-- C6 witness: the empty buffer against a never-populated (all zero)
instance. -/
theorem C6_bad_length_preserves_fields_witness :
    (get_current_status ⟨0, 0⟩ (WmiObj.buffer [])).1.features_present = 0
    ∧ (get_current_status ⟨0, 0⟩ (WmiObj.buffer [])).1.last_status = 0
    ∧ (get_current_status ⟨0, 0⟩ (WmiObj.buffer [])).2.2 = -einval :=
  C6_bad_length_preserves_fields ⟨0, 0⟩ [] (by decide)

/-- C9: the validity query is a pure cached read: it modifies no state, and
a repeated call with no intervening state change returns the same value. -/
theorem C9_validity_pure (st : DriverState) :
    (dell_privacy_valid st).2 = st
    ∧ (dell_privacy_valid (dell_privacy_valid st).2).1 = (dell_privacy_valid st).1 := by
  refine ⟨dell_privacy_valid_snd st, ?_⟩
  rw [dell_privacy_valid_snd st]

/-- C10: the event relay has no error return path (its result type carries
no return code), and for every input it preserves the validity flag, the
GUID presence, every instance's features_present, the length of the
registration list and its entire tail; the only state it may change is the
first instance's last_status. -/
theorem C10_process_event_frame (st : DriverState) (ty code status : Nat) :
    (dell_privacy_process_event st ty code status).1.privacy_valid = st.privacy_valid
    ∧ (dell_privacy_process_event st ty code status).1.guidPresent = st.guidPresent
    ∧ (dell_privacy_process_event st ty code status).1.wmi_list.length
        = st.wmi_list.length
    ∧ (dell_privacy_process_event st ty code status).1.wmi_list.tail = st.wmi_list.tail
    ∧ (dell_privacy_process_event st ty code status).1.wmi_list.map
          privacy_wmi_data.features_present
        = st.wmi_list.map privacy_wmi_data.features_present
    ∧ ((dell_privacy_process_event st ty code status).1.wmi_list = st.wmi_list
       ∨ ∃ p rest, st.wmi_list = p :: rest
           ∧ (dell_privacy_process_event st ty code status).1.wmi_list
               = { p with last_status := status % 4294967296 } :: rest) := by
  rcases process_event_state_cases st ty code status with h | ⟨p, rest, hl, h⟩
  · rw [h]
    exact ⟨rfl, rfl, rfl, rfl, rfl, Or.inl rfl⟩
  · rw [h, hl]
    exact ⟨rfl, rfl, rfl, rfl, rfl, Or.inr ⟨p, rest, rfl, rfl⟩⟩

/-- The keymap installed by the probe, evaluated: entry codes carry the
0x0012 namespace prefix in the upper 16 bits. -/
theorem probe_keymap_eq :
    probe_keymap = [⟨KeType.KE_KEY, 1179649, KEY_MICMUTE⟩,
                    ⟨KeType.KE_SW, 1179650, SW_CAMERA_LENS_COVER⟩] := rfl

/-- C1: with at least one registered instance and arguments within the u16
event contract, an event whose (type, code) pair is in the type 0x0012
keymap table sets the first instance's last_status to status and emits
exactly one input action; an event whose pair is not in the table leaves
every instance's last_status unchanged and emits no input action. -/
theorem C1_process_event_keymap (st : DriverState) (ty code status : Nat)
    (hne : st.wmi_list ≠ []) (hty : ty < 65536) (hcode : code < 65536)
    (hstatus : status < 4294967296) :
    (pair_in_keymap ty code = true →
      ((dell_privacy_process_event st ty code status).1.wmi_list.headD
          ⟨0, 0⟩).last_status = status
      ∧ (dell_privacy_process_event st ty code status).2.length = 1)
    ∧ (pair_in_keymap ty code = false →
      (dell_privacy_process_event st ty code status).1.wmi_list.map
          privacy_wmi_data.last_status
        = st.wmi_list.map privacy_wmi_data.last_status
      ∧ (dell_privacy_process_event st ty code status).2 = []) := by
  obtain ⟨g, v, l⟩ := st
  cases l with
  | nil => exact absurd rfl hne
  | cons p rest =>
    constructor
    · intro hin
      rw [pair_in_keymap_iff] at hin
      obtain ⟨hty18, hc⟩ := hin
      subst hty18
      rcases hc with hc | hc
      · subst hc
        have hk : sparse_keymap_entry_from_scancode probe_keymap (scancode 18 1)
            = Option.some ⟨KeType.KE_KEY, 1179649, KEY_MICMUTE⟩ := by decide
        simp [dell_privacy_process_event, hk, DELL_PRIVACY_TYPE_AUDIO,
              sparse_keymap_report_entry, Nat.mod_eq_of_lt hstatus]
      · subst hc
        have hk : sparse_keymap_entry_from_scancode probe_keymap (scancode 18 2)
            = Option.some ⟨KeType.KE_SW, 1179650, SW_CAMERA_LENS_COVER⟩ := by decide
        simp [dell_privacy_process_event, hk, DELL_PRIVACY_TYPE_AUDIO,
              DELL_PRIVACY_TYPE_CAMERA, sparse_keymap_report_entry,
              Nat.mod_eq_of_lt hstatus]
    · intro hnin
      have hnot : ¬ (ty = 18 ∧ (code = 1 ∨ code = 2)) := by
        rw [← pair_in_keymap_iff ty code, hnin]
        exact Bool.false_ne_true
      have hsc := scancode_eq ty code hty hcode
      have h1 : scancode ty code ≠ 1179649 := by
        rw [hsc]
        intro h
        have h18 : ty = 18 ∧ code = 1 := by omega
        exact hnot ⟨h18.1, Or.inl h18.2⟩
      have h2 : scancode ty code ≠ 1179650 := by
        rw [hsc]
        intro h
        have h18 : ty = 18 ∧ code = 2 := by omega
        exact hnot ⟨h18.1, Or.inr h18.2⟩
      have hk : sparse_keymap_entry_from_scancode probe_keymap (scancode ty code)
          = Option.none := by
        unfold sparse_keymap_entry_from_scancode
        rw [probe_keymap_eq]
        have b1 : (1179649 == scancode ty code) = false :=
          beq_eq_false_iff_ne.mpr (Ne.symm h1)
        have b2 : (1179650 == scancode ty code) = false :=
          beq_eq_false_iff_ne.mpr (Ne.symm h2)
        simp [List.find?, KEY_MICMUTE, SW_CAMERA_LENS_COVER, b1, b2]
      simp [dell_privacy_process_event, hk]

/-- C1 witness: the camera event of the spec scenario, applied to a state
with one instance whose previous status is 1, selects the table entry,
stores status 3 and emits one action. -/
theorem C1_process_event_keymap_witness :
    ((dell_privacy_process_event ⟨true, 0, [⟨3, 1⟩]⟩ 18 2 3).1.wmi_list.headD
        ⟨0, 0⟩).last_status = 3
    ∧ (dell_privacy_process_event ⟨true, 0, [⟨3, 1⟩]⟩ 18 2 3).2.length = 1 :=
  (C1_process_event_keymap ⟨true, 0, [⟨3, 1⟩]⟩ 18 2 3 (by decide) (by decide)
      (by decide) (by decide)).1 (by decide)

/-- The initial status query succeeds exactly on a well-formed 8-byte
buffer response. -/
theorem get_current_status_ret_zero (w : WmiObj) :
    (get_current_status ⟨0, 0⟩ w).2.2 = 0 ↔ wmi_response_ok w = true := by
  cases w with
  | null => simp [get_current_status, wmi_response_ok, eio]
  | nonBuffer => simp [get_current_status, wmi_response_ok, eio]
  | buffer bytes =>
    by_cases h : bytes.length = 8 <;>
      simp [get_current_status, wmi_response_ok, h, einval]

/-- Any probe leaves the list and validity flag alone, forces the flag to
-ENODEV, or ends with a nonempty list. -/
theorem probe_list_or_valid (st : DriverState) (env : ProbeEnv) :
    ((dell_privacy_wmi_probe st env).1.wmi_list = st.wmi_list
      ∧ ((dell_privacy_wmi_probe st env).1.privacy_valid = st.privacy_valid
         ∨ (dell_privacy_wmi_probe st env).1.privacy_valid = -enodev))
    ∨ (dell_privacy_wmi_probe st env).1.wmi_list ≠ [] := by
  unfold dell_privacy_wmi_probe
  split_ifs <;>
    first
      | (simp [enodev]; done)
      | (right; simp only []; split_ifs <;> simp)

/-- C7: in every reachable driver state, if no instance is present in the
registration list then the validity flag holds a negative error code,
never the Valid value 0. -/
theorem C7_empty_list_invalid (g : Bool) (s : DriverState) (h : Reachable g s) :
    s.wmi_list = [] → s.privacy_valid < 0 := by
  induction h with
  | init =>
    intro _
    norm_num [initState, eprobe_defer]
  | step s t hr hstep ih =>
    cases hstep with
    | probe env =>
      intro hempty
      rcases probe_list_or_valid s env with ⟨hl, hv | hv⟩ | hne2
      · rw [hv]
        exact ih (by rw [← hl]; exact hempty)
      · rw [hv]
        norm_num [enodev]
      · exact absurd hempty hne2
    | remove i =>
      intro _
      norm_num [dell_privacy_wmi_remove, enodev]
    | event ty code status =>
      intro hempty
      rcases process_event_state_cases s ty code status with hcase | ⟨p, rest, hl, hcase⟩
      · rw [hcase] at hempty ⊢
        exact ih hempty
      · rw [hcase] at hempty
        simp at hempty
    | query =>
      intro hempty
      rw [dell_privacy_valid_snd] at hempty ⊢
      exact ih hempty

/-- C7 witness: the invariant applied to the initial state. -/
theorem C7_empty_list_invalid_witness : (initState true).privacy_valid < 0 :=
  C7_empty_list_invalid true (initState true) Reachable.init rfl

/-- C4 counterexample: before any registration, with the GUID present, the
validity query returns -EPROBE_DEFER (NotReady), not the NotFound code
-ENODEV the claim asserts. -/
theorem C4_counterexample :
    (dell_privacy_valid (initState true)).1 ≠ -enodev := by
  decide

/-- C4 (amended): the validity query returns NotFound (-ENODEV) when the
GUID is absent; before any registration, with the GUID present, it returns
the NotReady code -EPROBE_DEFER; after a fully successful probe it returns
Ok (0); after a probe that fails once setup reached the error labels, and
after an instance removal, it returns the recorded error code -ENODEV. -/
theorem C4_validity_amended :
    (∀ st : DriverState, st.guidPresent = false → (dell_privacy_valid st).1 = -enodev)
    ∧ (dell_privacy_valid (initState true)).1 = -eprobe_defer
    ∧ (∀ (st : DriverState) (env : ProbeEnv), st.guidPresent = true →
        probe_success env = true →
        (dell_privacy_valid (dell_privacy_wmi_probe st env).1).1 = 0)
    ∧ (∀ (st : DriverState) (env : ProbeEnv), st.guidPresent = true →
        probe_fails_late env = true →
        (dell_privacy_valid (dell_privacy_wmi_probe st env).1).1 = -enodev)
    ∧ (∀ (st : DriverState) (i : Nat), st.guidPresent = true →
        (dell_privacy_valid (dell_privacy_wmi_remove st i).1).1 = -enodev) := by
  refine ⟨?_, rfl, ?_, ?_, ?_⟩
  · intro st h
    simp [dell_privacy_valid, h]
  · intro st env hg hs
    obtain ⟨a1, a2, a3, a4, a5, w, a7⟩ := env
    cases w with
    | null => simp [probe_success, wmi_response_ok] at hs
    | nonBuffer => simp [probe_success, wmi_response_ok] at hs
    | buffer bytes =>
      simp only [probe_success, wmi_response_ok, Bool.and_eq_true, beq_iff_eq] at hs
      simp [dell_privacy_wmi_probe, get_current_status, dell_privacy_valid, hg,
            hs.1.1.1.1.1.1, hs.1.1.1.1.1.2, hs.1.1.1.1.2, hs.1.1.1.2, hs.1.1.2,
            hs.1.2, hs.2]
  · intro st env hg hf
    obtain ⟨a1, a2, a3, a4, a5, w, a7⟩ := env
    simp only [probe_fails_late, Bool.and_eq_true, Bool.or_eq_true, Bool.not_eq_true',
      beq_iff_eq, beq_eq_false_iff_ne] at hf
    have hb1 : a1 = true := by tauto
    have hb2 : a2 = true := by tauto
    have hb3 : a3 = true := by tauto
    have hb4 : a4 = 0 := by tauto
    have hdisj : a5 = false ∨ wmi_response_ok w = false ∨ a7 ≠ 0 := by tauto
    have hret := get_current_status_ret_zero w
    rcases hdisj with h5 | h5 | h5
    · simp [dell_privacy_wmi_probe, dell_privacy_valid, hg, hb1, hb2, hb3, hb4, h5]
    · have hne0 : (get_current_status ⟨0, 0⟩ w).2.2 ≠ 0 := by
        intro hz
        rw [hret, h5] at hz
        exact Bool.false_ne_true hz
      cases a5 <;>
        simp [dell_privacy_wmi_probe, dell_privacy_valid, hg, hb1, hb2, hb3, hb4, hne0]
    · cases a5 with
      | false => simp [dell_privacy_wmi_probe, dell_privacy_valid, hg, hb1, hb2, hb3, hb4]
      | true =>
        by_cases hz : (get_current_status ⟨0, 0⟩ w).2.2 = 0 <;>
          simp [dell_privacy_wmi_probe, dell_privacy_valid, hg, hb1, hb2, hb3, hb4, hz, h5]
  · intro st i hg
    simp [dell_privacy_wmi_remove, dell_privacy_valid, hg]

/-- C4 witness: the NotFound clause of the amended theorem, applied at the
initial state of a system without the GUID. -/
theorem C4_validity_amended_witness :
    (dell_privacy_valid (initState false)).1 = -enodev :=
  C4_validity_amended.1 (initState false) rfl

/-- C8: probing with a well-formed 8-byte buffer encoding the pair
(features, status) succeeds, populates features_present with features and
last_status with status, and the two read-only attributes then render
exactly those values as hexadecimal text. -/
theorem C8_roundtrip (features status : Nat) (priv : privacy_wmi_data)
    (hf : features < 4294967296) (hs : status < 4294967296) :
    (get_current_status priv
        (WmiObj.buffer (encode_u32le features ++ encode_u32le status))).2.2 = 0
    ∧ (get_current_status priv
        (WmiObj.buffer (encode_u32le features ++ encode_u32le status))).1.features_present
        = features
    ∧ (get_current_status priv
        (WmiObj.buffer (encode_u32le features ++ encode_u32le status))).1.last_status
        = status
    ∧ devices_supported_show (get_current_status priv
        (WmiObj.buffer (encode_u32le features ++ encode_u32le status))).1
        = hex_text features ++ "\n"
    ∧ current_state_show (get_current_status priv
        (WmiObj.buffer (encode_u32le features ++ encode_u32le status))).1
        = hex_text status ++ "\n" := by
  have hlen : (encode_u32le features ++ encode_u32le status).length = 8 := by
    simp [encode_u32le]
  have hf0 : u32le (encode_u32le features ++ encode_u32le status) 0 = features := by
    simp [u32le, encode_u32le, List.getD]
    omega
  have hs4 : u32le (encode_u32le features ++ encode_u32le status) 4 = status := by
    simp [u32le, encode_u32le, List.getD]
    omega
  have hmain : get_current_status priv
      (WmiObj.buffer (encode_u32le features ++ encode_u32le status))
      = (⟨features, status⟩, 0, 0) := by
    simp [get_current_status, hlen, hf0, hs4]
  rw [hmain]
  exact ⟨rfl, rfl, rfl, rfl, rfl⟩

/-- C8 witness: the spec scenario pair (features 3, status 1). -/
theorem C8_roundtrip_witness :
    (get_current_status ⟨0, 0⟩
        (WmiObj.buffer (encode_u32le 3 ++ encode_u32le 1))).1.features_present = 3
    ∧ devices_supported_show (get_current_status ⟨0, 0⟩
        (WmiObj.buffer (encode_u32le 3 ++ encode_u32le 1))).1 = hex_text 3 ++ "\n" :=
  ⟨(C8_roundtrip 3 1 ⟨0, 0⟩ (by decide) (by decide)).2.1,
   (C8_roundtrip 3 1 ⟨0, 0⟩ (by decide) (by decide)).2.2.2.1⟩

end DellPrivacy
